import Mathlib

/-!
Shallow embedding of the event-booking backend (`backend/app/main.py`,
`backend/app/models.py`) and proofs about its slot-overlap validation and
booking state machine.

Timestamps are modelled as integers (minutes); a calendar date is an integer
day number, so the `datetime` at midnight of day `d` is `d * minutesPerDay`
and Python's `timedelta(days=1)` is `minutesPerDay`.
-/

/-- Python's `str.lower()` restricted to the character-wise lowering that
`Char.toLower` performs (exact for ASCII inputs such as the emails here). -/
def pyLower (s : String) : String := ⟨s.data.map Char.toLower⟩

/-- Python's `str.strip()`: remove leading and trailing whitespace. -/
def pyStrip (s : String) : String :=
  ⟨((s.data.dropWhile Char.isWhitespace).reverse.dropWhile Char.isWhitespace).reverse⟩

/-- The spec's email normalization: lower-cased and whitespace-trimmed. -/
def normalizeEmail (s : String) : String := pyStrip (pyLower s)

/-- Row of the `event_categories` table (`models.EventCategory`). -/
structure EventCategory where
  id : Nat
  name : String
deriving Repr, DecidableEq

/-- Row of the `time_slots` table (`models.TimeSlot`). -/
structure TimeSlot where
  id : Nat
  category_id : Nat
  start_time : Int
  end_time : Int
deriving Repr, DecidableEq

/-- Row of the `bookings` table (`models.Booking`). -/
structure Booking where
  id : Nat
  time_slot_id : Nat
  user_name : String
  user_email : String
  booked_at : Int
deriving Repr, DecidableEq

/-- The persisted store: the three tables. -/
structure DB where
  categories : List EventCategory
  slots : List TimeSlot
  bookings : List Booking
deriving Repr, DecidableEq

/-- `session.get(EventCategory, cid)`: find a category by primary key. -/
def DB.getCategory (db : DB) (cid : Nat) : Option EventCategory :=
  db.categories.find? (fun c => c.id == cid)

/-- `session.get(TimeSlot, sid)`: find a slot by primary key. -/
def DB.getSlot (db : DB) (sid : Nat) : Option TimeSlot :=
  db.slots.find? (fun t => t.id == sid)

/-- The ORM relationship `slot.booking` (`uselist=False` over the unique
foreign key `Booking.time_slot_id`): the booking row attached to a slot. -/
def DB.slotBooking (db : DB) (sid : Nat) : Option Booking :=
  db.bookings.find? (fun b => b.time_slot_id == sid)

/-- An `HTTPException` as raised in `main.py`: status code and detail. -/
structure HTTPError where
  status_code : Nat
  detail : String
deriving Repr, DecidableEq

def categoryNotFoundErr : HTTPError := ⟨404, "Category not found."⟩
def invalidRangeErr : HTTPError := ⟨400, "End time must be after the start time."⟩
def slotConflictErr : HTTPError :=
  ⟨409, "A timeslot already exists for the selected time range."⟩
def slotNotFoundErr : HTTPError := ⟨404, "Time slot not found."⟩
def bookedConflictErr : HTTPError := ⟨409, "This time slot is already booked."⟩
def noBookingErr : HTTPError := ⟨404, "No booking found for this time slot."⟩
def forbiddenErr : HTTPError := ⟨403, "Only the original attendee can cancel this booking."⟩
def dateOrderErr : HTTPError := ⟨400, "end_date must not be earlier than start_date."⟩

/-- The three-case overlap test of `create_time_slot`'s SQL query, with the
proposed interval `[s1,e1)` as `payload` and an existing slot `[s2,e2)`:
new start inside existing, or new end inside existing, or new contains
existing. -/
def overlapping3 (s1 e1 s2 e2 : Int) : Bool :=
  (decide (s1 ≥ s2) && decide (s1 < e2)) ||
  (decide (e1 > s2) && decide (e1 ≤ e2)) ||
  (decide (s1 ≤ s2) && decide (e1 ≥ e2))

/-- The spec's single-inequality overlap rule for `[s1,e1)` and `[s2,e2)`:
`s1 < e2 AND s2 < e1`. -/
def overlapSpec (s1 e1 s2 e2 : Int) : Bool :=
  decide (s1 < e2) && decide (s2 < e1)

/-- `POST /timeslots` (`main.create_time_slot`): check category, check range,
check overlap against every slot of the category, then insert. `newId` stands
for the autoincrement primary key of the inserted row. -/
def create_time_slot (db : DB) (category_id : Nat) (start_time end_time : Int)
    (newId : Nat) : Except HTTPError (DB × TimeSlot) :=
  match db.getCategory category_id with
  | none => .error categoryNotFoundErr
  | some _ =>
    if end_time ≤ start_time then
      .error invalidRangeErr
    else if db.slots.any (fun t =>
        t.category_id == category_id &&
        overlapping3 start_time end_time t.start_time t.end_time) then
      .error slotConflictErr
    else
      let slot : TimeSlot := ⟨newId, category_id, start_time, end_time⟩
      .ok ({ db with slots := db.slots ++ [slot] }, slot)

/-- `POST /timeslots/{slot_id}/book` (`main.book_time_slot`). The existing
booking's email is compared with `.lower()` on both sides; a new booking
stores `user_name.strip()` and `user_email.lower().strip()`. `newId` is the
autoincrement key and `now` the server-assigned `booked_at` timestamp. -/
def book_time_slot (db : DB) (slot_id : Nat) (user_name user_email : String)
    (newId : Nat) (now : Int) : Except HTTPError (DB × Booking) :=
  match db.getSlot slot_id with
  | none => .error slotNotFoundErr
  | some slot =>
    match db.slotBooking slot.id with
    | some b =>
      if pyLower b.user_email = pyLower user_email then
        .ok (db, b)
      else
        .error bookedConflictErr
    | none =>
      let booking : Booking :=
        ⟨newId, slot.id, pyStrip user_name, pyStrip (pyLower user_email), now⟩
      .ok ({ db with bookings := db.bookings ++ [booking] }, booking)

/-- `POST /timeslots/{slot_id}/cancel` (`main.cancel_booking`): the emails are
compared with `.lower()` on both sides; on success the booking row is
deleted. -/
def cancel_booking (db : DB) (slot_id : Nat) (user_email : String) :
    Except HTTPError DB :=
  match db.getSlot slot_id with
  | none => .error slotNotFoundErr
  | some slot =>
    match db.slotBooking slot.id with
    | none => .error noBookingErr
    | some b =>
      if pyLower b.user_email ≠ pyLower user_email then
        .error forbiddenErr
      else
        .ok { db with bookings := db.bookings.filter (fun x => x.id != b.id) }

deriving instance DecidableEq for Except

/-- Minutes in one day: `timedelta(days=1)` in the minute-based time model. -/
def minutesPerDay : Int := 1440

/-- Does a slot pass the `category_ids` filter of `GET /timeslots`?
`none` models an absent parameter, `some []` a parameter that parses to no
ids; both mean "all categories" (the code skips the filter). -/
def categoryFilterOk (category_ids : Option (List Nat)) (cid : Nat) : Bool :=
  match category_ids with
  | none => true
  | some ids => ids.isEmpty || ids.contains cid

/-- `GET /timeslots` (`main.list_time_slots`) for well-formed dates, given as
day numbers: reject `end_date < start_date`, filter slots whose `start_time`
lies in `[start_date, end_date + 1 day)`, apply the category filter, and
order by `start_time`. -/
def list_time_slots (db : DB) (start_date end_date : Int)
    (category_ids : Option (List Nat)) : Except HTTPError (List TimeSlot) :=
  if end_date < start_date then
    .error dateOrderErr
  else
    let start_dt := start_date * minutesPerDay
    let end_dt_inclusive := end_date * minutesPerDay + minutesPerDay
    let inRange := db.slots.filter (fun t =>
      decide (t.start_time ≥ start_dt) && decide (t.start_time < end_dt_inclusive) &&
      categoryFilterOk category_ids t.category_id)
    .ok (inRange.insertionSort (fun a b => a.start_time ≤ b.start_time))

/-! ## General lemmas -/

/-- Lower-casing both emails equal implies their full normalizations equal:
normalization factors through lower-casing. -/
lemma normalizeEmail_eq_of_pyLower_eq {a b : String}
    (h : pyLower a = pyLower b) : normalizeEmail a = normalizeEmail b := by
  unfold normalizeEmail
  rw [h]

/-- For non-degenerate intervals the three-case test of the SQL query agrees
with the spec's single inequality. -/
lemma overlapping3_iff_overlapSpec {s1 e1 s2 e2 : Int}
    (h1 : s1 < e1) (h2 : s2 < e2) :
    overlapping3 s1 e1 s2 e2 = true ↔ overlapSpec s1 e1 s2 e2 = true := by
  unfold overlapping3 overlapSpec
  simp only [Bool.or_eq_true, Bool.and_eq_true, decide_eq_true_eq]
  omega

/-- Touching non-degenerate intervals do not satisfy the three-case test. -/
lemma overlapping3_touching_false {s1 e1 s2 e2 : Int}
    (h1 : s1 < e1) (h2 : s2 < e2) (ht : e1 = s2 ∨ e2 = s1) :
    overlapping3 s1 e1 s2 e2 = false := by
  have : ¬ overlapping3 s1 e1 s2 e2 = true := by
    unfold overlapping3
    simp only [Bool.or_eq_true, Bool.and_eq_true, decide_eq_true_eq]
    omega
  exact Bool.eq_false_iff.mpr this

/-! ## Claim theorems -/

/-- C2: for non-degenerate intervals, the implementation's three-case
conflict test holds iff the spec's single inequality `s1 < e2 ∧ s2 < e1`
holds; and `create_time_slot` rejects with `Conflict` exactly when some
existing slot of the category satisfies that inequality (on conflict the
result is an error, so no slot is created). -/
theorem C2_overlap_refinement (db : DB) (c : Nat) (s1 e1 : Int) (newId : Nat)
    (hcat : (db.getCategory c).isSome = true)
    (h1 : s1 < e1)
    (hws : ∀ t ∈ db.slots, t.start_time < t.end_time) :
    (∀ s2 e2 : Int, s2 < e2 →
      (overlapping3 s1 e1 s2 e2 = true ↔ overlapSpec s1 e1 s2 e2 = true)) ∧
    (create_time_slot db c s1 e1 newId = .error slotConflictErr ↔
      ∃ t ∈ db.slots, t.category_id = c ∧ overlapSpec s1 e1 t.start_time t.end_time = true) := by
  constructor
  · intro s2 e2 h2
    exact overlapping3_iff_overlapSpec h1 h2
  · obtain ⟨cat, hc⟩ := Option.isSome_iff_exists.mp hcat
    unfold create_time_slot
    rw [hc]
    simp only
    rw [if_neg (by omega : ¬ e1 ≤ s1)]
    by_cases hany : db.slots.any (fun t =>
        t.category_id == c && overlapping3 s1 e1 t.start_time t.end_time) = true
    · rw [if_pos hany]
      simp only [true_iff]
      obtain ⟨t, ht, hpred⟩ := List.any_eq_true.mp hany
      rw [Bool.and_eq_true, beq_iff_eq] at hpred
      exact ⟨t, ht, hpred.1, (overlapping3_iff_overlapSpec h1 (hws t ht)).mp hpred.2⟩
    · rw [if_neg hany]
      simp only [reduceCtorEq, false_iff, not_exists]
      intro t ht
      apply hany
      refine List.any_eq_true.mpr ⟨t, ht.1, ?_⟩
      rw [Bool.and_eq_true, beq_iff_eq]
      exact ⟨ht.2.1, (overlapping3_iff_overlapSpec h1 (hws t ht.1)).mpr ht.2.2⟩

/-- Closed witness for C2 at a concrete database and proposed interval. -/
def db1 : DB :=
  { categories := [⟨1, "Cat 1"⟩],
    slots := [⟨1, 1, 0, 60⟩],
    bookings := [⟨1, 1, "Alice", "alice@x.com", 0⟩] }

theorem C2_overlap_refinement_witness :
    ((db1.getCategory 1).isSome = true ∧ (30 : Int) < 90 ∧
      ∀ t ∈ db1.slots, t.start_time < t.end_time) ∧
    ((∀ s2 e2 : Int, s2 < e2 →
      (overlapping3 30 90 s2 e2 = true ↔ overlapSpec 30 90 s2 e2 = true)) ∧
    (create_time_slot db1 1 30 90 2 = .error slotConflictErr ↔
      ∃ t ∈ db1.slots, t.category_id = 1 ∧ overlapSpec 30 90 t.start_time t.end_time = true)) :=
  ⟨⟨by decide, by decide, by decide⟩,
   C2_overlap_refinement db1 1 30 90 2 (by decide) (by decide) (by decide)⟩

/-- A store with one category and no slots, for the sequential part of C3. -/
def dbCatOnly : DB := { categories := [⟨1, "Cat 1"⟩], slots := [], bookings := [] }

/-- C3: touching non-degenerate intervals (`e1 = s2` or `e2 = s1`) never
satisfy the conflict test, and creating `[s1,e1)` then `[s2,e2)` with
`e1 = s2` in the same category both succeed. -/
theorem C3_touching_no_conflict (s1 e1 s2 e2 : Int) (h1 : s1 < e1) (h2 : s2 < e2)
    (ht : e1 = s2 ∨ e2 = s1) :
    overlapping3 s1 e1 s2 e2 = false ∧
    (e1 = s2 →
      create_time_slot dbCatOnly 1 s1 e1 1 =
        .ok ({ dbCatOnly with slots := [⟨1, 1, s1, e1⟩] }, ⟨1, 1, s1, e1⟩) ∧
      create_time_slot { dbCatOnly with slots := [⟨1, 1, s1, e1⟩] } 1 s2 e2 2 =
        .ok ({ dbCatOnly with slots := [⟨1, 1, s1, e1⟩, ⟨2, 1, s2, e2⟩] }, ⟨2, 1, s2, e2⟩)) := by
  refine ⟨overlapping3_touching_false h1 h2 ht, fun he => ⟨?_, ?_⟩⟩
  · unfold create_time_slot
    have hcat : dbCatOnly.getCategory 1 = some ⟨1, "Cat 1"⟩ := rfl
    rw [hcat]
    simp only
    rw [if_neg (by omega : ¬ e1 ≤ s1)]
    rfl
  · unfold create_time_slot
    have hcat : ({ dbCatOnly with slots := [⟨1, 1, s1, e1⟩] } : DB).getCategory 1 =
        some ⟨1, "Cat 1"⟩ := rfl
    rw [hcat]
    simp only
    rw [if_neg (by omega : ¬ e2 ≤ s2)]
    have hov : overlapping3 s2 e2 s1 e1 = false :=
      overlapping3_touching_false h2 h1 (Or.inr he)
    have hany : (({ dbCatOnly with slots := [⟨1, 1, s1, e1⟩] } : DB)).slots.any
        (fun t => t.category_id == 1 && overlapping3 s2 e2 t.start_time t.end_time) = false := by
      simp [dbCatOnly, hov]
    rw [if_neg (by simp [hany])]
    rfl

/-- Closed witness for C3: `[0,60)` then `[60,120)` in the same category. -/
theorem C3_touching_no_conflict_witness :
    ((0 : Int) < 60 ∧ (60 : Int) < 120 ∧ ((60 : Int) = 60 ∨ (120 : Int) = 0)) ∧
    (overlapping3 0 60 60 120 = false ∧
    ((60 : Int) = 60 →
      create_time_slot dbCatOnly 1 0 60 1 =
        .ok ({ dbCatOnly with slots := [⟨1, 1, 0, 60⟩] }, ⟨1, 1, 0, 60⟩) ∧
      create_time_slot { dbCatOnly with slots := [⟨1, 1, 0, 60⟩] } 1 60 120 2 =
        .ok ({ dbCatOnly with slots := [⟨1, 1, 0, 60⟩, ⟨2, 1, 60, 120⟩] }, ⟨2, 1, 60, 120⟩))) :=
  ⟨⟨by decide, by decide, Or.inl (by decide)⟩,
   C3_touching_no_conflict 0 60 60 120 (by decide) (by decide) (Or.inl (by decide))⟩

/-- C4 counterexample: with `end <= start` AND a nonexistent category, the
code fails with `CategoryNotFound` (the category check runs first), not with
`InvalidRange` as the claim demands for all inputs. -/
theorem C4_counterexample :
    create_time_slot db1 99 10 5 7 = .error categoryNotFoundErr ∧
    create_time_slot db1 99 10 5 7 ≠ .error invalidRangeErr := by decide

/-- C4 amended: for every input with `end <= start` whose category exists,
`create_time_slot` fails with `InvalidRange`. -/
theorem C4_invalid_range (db : DB) (c : Nat) (s e : Int) (newId : Nat)
    (hcat : (db.getCategory c).isSome = true) (hle : e ≤ s) :
    create_time_slot db c s e newId = .error invalidRangeErr := by
  obtain ⟨cat, hc⟩ := Option.isSome_iff_exists.mp hcat
  unfold create_time_slot
  rw [hc]
  simp only
  rw [if_pos hle]

/-- Closed witness for C4's amended theorem. -/
theorem C4_invalid_range_witness :
    ((db1.getCategory 1).isSome = true ∧ (5 : Int) ≤ 10) ∧
    create_time_slot db1 1 10 5 7 = .error invalidRangeErr :=
  ⟨⟨by decide, by decide⟩, C4_invalid_range db1 1 10 5 7 (by decide) (by decide)⟩

/-- C9: when the parsed end date is strictly earlier than the start date,
`list_time_slots` fails with the 400 `InvalidArgument` rejection instead of
returning a list. -/
theorem C9_end_before_start (db : DB) (sd ed : Int) (cids : Option (List Nat))
    (hlt : ed < sd) :
    list_time_slots db sd ed cids = .error dateOrderErr := by
  unfold list_time_slots
  rw [if_pos hlt]

/-- Closed witness for C9 at a concrete database and date pair. -/
theorem C9_end_before_start_witness :
    ((3 : Int) < 7) ∧ list_time_slots db1 7 3 none = .error dateOrderErr :=
  ⟨by decide, C9_end_before_start db1 7 3 none (by decide)⟩

/-- C1 counterexample: slot 1 of `db1` is booked with stored (normalized)
email `"alice@x.com"`; re-booking with `"ALICE@X.COM "` — equal after the
spec's normalization — fails with `Conflict` instead of returning the
existing booking, because the code compares with `.lower()` only and never
strips the request email. -/
theorem C1_counterexample :
    normalizeEmail "ALICE@X.COM " = normalizeEmail "alice@x.com" ∧
    db1.slotBooking 1 = some ⟨1, 1, "Alice", "alice@x.com", 0⟩ ∧
    book_time_slot db1 1 "Alice" "ALICE@X.COM " 2 5 = .error bookedConflictErr := by
  decide

/-- C1 amended: re-booking a `Booked` slot is an idempotent success exactly
when the lower-cased (but not whitespace-trimmed) request email equals the
lower-cased stored email: the existing Booking is returned and the store is
unchanged (no new row). -/
theorem C1_idempotent_rebook (db : DB) (slot_id : Nat) (slot : TimeSlot)
    (b : Booking) (name email : String) (newId : Nat) (now : Int)
    (hslot : db.getSlot slot_id = some slot)
    (hb : db.slotBooking slot.id = some b)
    (hemail : pyLower email = pyLower b.user_email) :
    book_time_slot db slot_id name email newId now = .ok (db, b) := by
  unfold book_time_slot
  rw [hslot]
  simp only
  rw [hb]
  simp only
  rw [if_pos hemail.symm]

/-- Closed witness for C1's amended theorem: different case, no extra
whitespace. -/
theorem C1_idempotent_rebook_witness :
    (db1.getSlot 1 = some ⟨1, 1, 0, 60⟩ ∧
     db1.slotBooking 1 = some ⟨1, 1, "Alice", "alice@x.com", 0⟩ ∧
     pyLower "ALICE@X.COM" = pyLower "alice@x.com") ∧
    book_time_slot db1 1 "Alice" "ALICE@X.COM" 2 5 =
      .ok (db1, ⟨1, 1, "Alice", "alice@x.com", 0⟩) :=
  ⟨⟨by decide, by decide, by decide⟩,
   C1_idempotent_rebook db1 1 ⟨1, 1, 0, 60⟩ ⟨1, 1, "Alice", "alice@x.com", 0⟩
     "Alice" "ALICE@X.COM" 2 5 (by decide) (by decide) (by decide)⟩

/-- C6: booking a `Booked` slot with an email whose normalization differs
from the stored booking's normalization always fails with `Conflict`; the
result is an error, so the store — in particular the existing Booking — is
untouched and no new Booking is created. -/
theorem C6_different_email_conflict (db : DB) (slot_id : Nat) (slot : TimeSlot)
    (b : Booking) (name email : String) (newId : Nat) (now : Int)
    (hslot : db.getSlot slot_id = some slot)
    (hb : db.slotBooking slot.id = some b)
    (hne : normalizeEmail email ≠ normalizeEmail b.user_email) :
    book_time_slot db slot_id name email newId now = .error bookedConflictErr := by
  have hlow : ¬ pyLower b.user_email = pyLower email := by
    intro h
    exact hne (normalizeEmail_eq_of_pyLower_eq h).symm
  unfold book_time_slot
  rw [hslot]
  simp only
  rw [hb]
  simp only
  rw [if_neg hlow]

/-- Closed witness for C6: Bob tries to book Alice's slot. -/
theorem C6_different_email_conflict_witness :
    (db1.getSlot 1 = some ⟨1, 1, 0, 60⟩ ∧
     db1.slotBooking 1 = some ⟨1, 1, "Alice", "alice@x.com", 0⟩ ∧
     normalizeEmail "bob@x.com" ≠ normalizeEmail "alice@x.com") ∧
    book_time_slot db1 1 "Bob" "bob@x.com" 2 5 = .error bookedConflictErr :=
  ⟨⟨by decide, by decide, by decide⟩,
   C6_different_email_conflict db1 1 ⟨1, 1, 0, 60⟩ ⟨1, 1, "Alice", "alice@x.com", 0⟩
     "Bob" "bob@x.com" 2 5 (by decide) (by decide) (by decide)⟩

/-- C7: booking an `Open` slot appends exactly one new Booking row storing
the trimmed name and the lower-cased+trimmed email with the server-assigned
timestamp, returns that Booking, and the slot is `Booked` afterwards. -/
theorem C7_book_open_slot (db : DB) (slot_id : Nat) (slot : TimeSlot)
    (name email : String) (newId : Nat) (now : Int)
    (hslot : db.getSlot slot_id = some slot)
    (hopen : db.slotBooking slot.id = none) :
    book_time_slot db slot_id name email newId now =
      .ok ({ db with bookings :=
          db.bookings ++ [⟨newId, slot.id, pyStrip name, pyStrip (pyLower email), now⟩] },
        ⟨newId, slot.id, pyStrip name, pyStrip (pyLower email), now⟩) ∧
    DB.slotBooking
      { db with bookings :=
          db.bookings ++ [⟨newId, slot.id, pyStrip name, pyStrip (pyLower email), now⟩] }
      slot.id = some ⟨newId, slot.id, pyStrip name, pyStrip (pyLower email), now⟩ := by
  constructor
  · unfold book_time_slot
    rw [hslot]
    simp only
    rw [hopen]
  · unfold DB.slotBooking at hopen ⊢
    simp only
    rw [List.find?_append, hopen]
    simp [List.find?]

/-- A store with one category and one open (unbooked) slot. -/
def dbOpen : DB :=
  { categories := [⟨1, "Cat 1"⟩], slots := [⟨1, 1, 0, 60⟩], bookings := [] }

/-- Closed witness for C7: booking with `"Alice@x.com"` stores
`"alice@x.com"`. -/
theorem C7_book_open_slot_witness :
    (dbOpen.getSlot 1 = some ⟨1, 1, 0, 60⟩ ∧ dbOpen.slotBooking 1 = none ∧
     pyStrip (pyLower "Alice@x.com") = "alice@x.com") ∧
    (book_time_slot dbOpen 1 "Alice" "Alice@x.com" 1 99 =
      .ok ({ dbOpen with bookings :=
          dbOpen.bookings ++ [⟨1, 1, pyStrip "Alice", pyStrip (pyLower "Alice@x.com"), 99⟩] },
        ⟨1, 1, pyStrip "Alice", pyStrip (pyLower "Alice@x.com"), 99⟩) ∧
    DB.slotBooking
      { dbOpen with bookings :=
          dbOpen.bookings ++ [⟨1, 1, pyStrip "Alice", pyStrip (pyLower "Alice@x.com"), 99⟩] }
      1 = some ⟨1, 1, pyStrip "Alice", pyStrip (pyLower "Alice@x.com"), 99⟩) :=
  ⟨⟨by decide, by decide, by decide⟩,
   C7_book_open_slot dbOpen 1 ⟨1, 1, 0, 60⟩ "Alice" "Alice@x.com" 1 99
     (by decide) (by decide)⟩

/-- The single-occupancy invariant: no two Booking rows share a
`time_slot_id` (mirrors the `unique=True` constraint on
`Booking.time_slot_id` in `models.py`). -/
def UniqueSlotBookings (db : DB) : Prop :=
  db.bookings.Pairwise (fun x y => x.time_slot_id ≠ y.time_slot_id)

/-- C5 counterexample: the booking stores the normalized email
`"alice@x.com"`; cancelling with `"alice@x.com "` — identical after the
spec's normalization — fails with `Forbidden` instead of succeeding, because
the cancel comparison applies `.lower()` but never strips. -/
theorem C5_counterexample :
    normalizeEmail "alice@x.com " = normalizeEmail "alice@x.com" ∧
    db1.slotBooking 1 = some ⟨1, 1, "Alice", "alice@x.com", 0⟩ ∧
    cancel_booking db1 1 "alice@x.com " = .error forbiddenErr := by
  decide

/-- C5 amended: on a `Booked` slot, cancel fails with `Forbidden` whenever
the normalized emails differ (the error leaves the store unchanged), and
succeeds exactly when the lower-cased (un-trimmed) request email equals the
lower-cased stored email: the Booking row is deleted, the slot is `Open`
again, and a subsequent book on it succeeds with a fresh Booking. -/
theorem C5_cancel_owner_only (db : DB) (slot_id : Nat) (slot : TimeSlot)
    (b : Booking) (email : String)
    (hslot : db.getSlot slot_id = some slot)
    (hb : db.slotBooking slot.id = some b)
    (huniq : UniqueSlotBookings db) :
    (normalizeEmail email ≠ normalizeEmail b.user_email →
      cancel_booking db slot_id email = .error forbiddenErr) ∧
    (pyLower email = pyLower b.user_email →
      cancel_booking db slot_id email =
        .ok { db with bookings := db.bookings.filter (fun x => x.id != b.id) } ∧
      DB.slotBooking { db with bookings := db.bookings.filter (fun x => x.id != b.id) }
        slot.id = none ∧
      ∀ name2 email2 newId now,
        book_time_slot { db with bookings := db.bookings.filter (fun x => x.id != b.id) }
          slot_id name2 email2 newId now =
          .ok ({ db with bookings :=
              db.bookings.filter (fun x => x.id != b.id) ++
                [⟨newId, slot.id, pyStrip name2, pyStrip (pyLower email2), now⟩] },
            ⟨newId, slot.id, pyStrip name2, pyStrip (pyLower email2), now⟩)) := by
  have hbmem : b ∈ db.bookings := List.mem_of_find?_eq_some hb
  have hbslot : b.time_slot_id = slot.id := by
    have := List.find?_some hb
    simpa [beq_iff_eq] using this
  constructor
  · intro hne
    have hlow : pyLower b.user_email ≠ pyLower email := by
      intro h
      exact hne (normalizeEmail_eq_of_pyLower_eq h).symm
    unfold cancel_booking
    rw [hslot]
    simp only
    rw [hb]
    simp only
    rw [if_pos hlow]
  · intro hlow
    have hopen : DB.slotBooking
        { db with bookings := db.bookings.filter (fun x => x.id != b.id) }
        slot.id = none := by
      unfold DB.slotBooking
      simp only
      rw [List.find?_eq_none]
      intro x hx
      have hx' := List.mem_filter.mp hx
      intro hpred
      have hxslot : x.time_slot_id = slot.id := by simpa [beq_iff_eq] using hpred
      have hxb : x ≠ b := by
        intro hcontra
        rw [hcontra] at hx'
        simp at hx'
      have hsym : Symmetric (fun x y : Booking => x.time_slot_id ≠ y.time_slot_id) :=
        fun _ _ h => Ne.symm h
      have := huniq.forall hsym (hx'.1) hbmem hxb
      exact this (hxslot.trans hbslot.symm)
    refine ⟨?_, hopen, ?_⟩
    · unfold cancel_booking
      rw [hslot]
      simp only
      rw [hb]
      simp only
      rw [if_neg (not_not_intro hlow.symm)]
    · intro name2 email2 newId now
      have hslot2 : DB.getSlot
          { db with bookings := db.bookings.filter (fun x => x.id != b.id) }
          slot_id = some slot := hslot
      unfold book_time_slot
      rw [hslot2]
      simp only
      rw [hopen]

/-- Closed witness for C5's amended theorem, instantiated with the owner's
exact normalized email. -/
theorem C5_cancel_owner_only_witness :
    (db1.getSlot 1 = some ⟨1, 1, 0, 60⟩ ∧
     db1.slotBooking 1 = some ⟨1, 1, "Alice", "alice@x.com", 0⟩ ∧
     UniqueSlotBookings db1) ∧
    ((normalizeEmail "alice@x.com" ≠ normalizeEmail "alice@x.com" →
      cancel_booking db1 1 "alice@x.com" = .error forbiddenErr) ∧
    (pyLower "alice@x.com" = pyLower "alice@x.com" →
      cancel_booking db1 1 "alice@x.com" =
        .ok { db1 with bookings := db1.bookings.filter (fun x => x.id != 1) } ∧
      DB.slotBooking { db1 with bookings := db1.bookings.filter (fun x => x.id != 1) } 1 =
        none ∧
      ∀ name2 email2 newId now,
        book_time_slot { db1 with bookings := db1.bookings.filter (fun x => x.id != 1) }
          1 name2 email2 newId now =
          .ok ({ db1 with bookings :=
              db1.bookings.filter (fun x => x.id != 1) ++
                [⟨newId, 1, pyStrip name2, pyStrip (pyLower email2), now⟩] },
            ⟨newId, 1, pyStrip name2, pyStrip (pyLower email2), now⟩))) :=
  ⟨⟨by decide, by decide, by simp [UniqueSlotBookings, db1]⟩,
   C5_cancel_owner_only db1 1 ⟨1, 1, 0, 60⟩ ⟨1, 1, "Alice", "alice@x.com", 0⟩
     "alice@x.com" (by decide) (by decide) (by simp [UniqueSlotBookings, db1])⟩

/-- C10: every operation preserves "each slot has at most one Booking row".
`create_time_slot` leaves the bookings table untouched; `book_time_slot`
either returns the existing Booking (store unchanged) or appends one row for
a slot that had none; `cancel_booking` only deletes. -/
theorem C10_at_most_one_booking (db : DB) (hinv : UniqueSlotBookings db) :
    (∀ c s e newId db2 slot,
      create_time_slot db c s e newId = .ok (db2, slot) → UniqueSlotBookings db2) ∧
    (∀ slot_id name email newId now db2 bk,
      book_time_slot db slot_id name email newId now = .ok (db2, bk) →
      UniqueSlotBookings db2) ∧
    (∀ slot_id email db2,
      cancel_booking db slot_id email = .ok db2 → UniqueSlotBookings db2) := by
  refine ⟨?_, ?_, ?_⟩
  · intro c s e newId db2 slot h
    unfold create_time_slot at h
    cases hc : db.getCategory c with
    | none => rw [hc] at h; simp at h
    | some cat =>
      rw [hc] at h
      simp only at h
      by_cases hle : e ≤ s
      · rw [if_pos hle] at h; simp at h
      · rw [if_neg hle] at h
        by_cases hany : (db.slots.any fun t =>
            t.category_id == c && overlapping3 s e t.start_time t.end_time) = true
        · rw [if_pos hany] at h; simp at h
        · rw [if_neg hany] at h
          simp only [Except.ok.injEq, Prod.mk.injEq] at h
          obtain ⟨hdb, -⟩ := h
          subst hdb
          exact hinv
  · intro slot_id name email newId now db2 bk h
    unfold book_time_slot at h
    cases hs : db.getSlot slot_id with
    | none => rw [hs] at h; simp at h
    | some slot =>
      rw [hs] at h
      simp only at h
      cases hbk : db.slotBooking slot.id with
      | some b =>
        rw [hbk] at h
        simp only at h
        by_cases heq : pyLower b.user_email = pyLower email
        · rw [if_pos heq] at h
          simp only [Except.ok.injEq, Prod.mk.injEq] at h
          obtain ⟨hdb, -⟩ := h
          subst hdb
          exact hinv
        · rw [if_neg heq] at h; simp at h
      | none =>
        rw [hbk] at h
        simp only [Except.ok.injEq, Prod.mk.injEq] at h
        obtain ⟨hdb, -⟩ := h
        subst hdb
        unfold UniqueSlotBookings
        simp only
        rw [List.pairwise_append]
        refine ⟨hinv, List.pairwise_singleton _ _, ?_⟩
        intro a ha b' hb'
        simp only [List.mem_singleton] at hb'
        subst hb'
        unfold DB.slotBooking at hbk
        have hnone := List.find?_eq_none.mp hbk a ha
        simp only [beq_iff_eq] at hnone
        simpa using hnone
  · intro slot_id email db2 h
    unfold cancel_booking at h
    cases hs : db.getSlot slot_id with
    | none => rw [hs] at h; simp at h
    | some slot =>
      rw [hs] at h
      simp only at h
      cases hbk : db.slotBooking slot.id with
      | none => rw [hbk] at h; simp at h
      | some b =>
        rw [hbk] at h
        simp only at h
        by_cases hne : pyLower b.user_email ≠ pyLower email
        · rw [if_pos hne] at h; simp at h
        · rw [if_neg hne] at h
          simp only [Except.ok.injEq] at h
          subst h
          exact List.Pairwise.sublist (List.filter_sublist _) hinv

/-- Closed witness for C10 at a store that satisfies the invariant. -/
theorem C10_at_most_one_booking_witness :
    UniqueSlotBookings db1 ∧
    ((∀ c s e newId db2 slot,
      create_time_slot db1 c s e newId = .ok (db2, slot) → UniqueSlotBookings db2) ∧
    (∀ slot_id name email newId now db2 bk,
      book_time_slot db1 slot_id name email newId now = .ok (db2, bk) →
      UniqueSlotBookings db2) ∧
    (∀ slot_id email db2,
      cancel_booking db1 slot_id email = .ok db2 → UniqueSlotBookings db2)) :=
  ⟨by simp [UniqueSlotBookings, db1],
   C10_at_most_one_booking db1 (by simp [UniqueSlotBookings, db1])⟩

/-- The spec-side meaning of the `category_ids` parameter: absent or empty
means all categories, otherwise only the listed categories. -/
def catAllowed (category_ids : Option (List Nat)) (cid : Nat) : Prop :=
  match category_ids with
  | none => True
  | some ids => ids = [] ∨ cid ∈ ids

/-- The code's filter agrees with the spec-side meaning. -/
lemma categoryFilterOk_iff (category_ids : Option (List Nat)) (cid : Nat) :
    categoryFilterOk category_ids cid = true ↔ catAllowed category_ids cid := by
  cases category_ids with
  | none => simp [categoryFilterOk, catAllowed]
  | some ids => simp [categoryFilterOk, catAllowed]

instance : IsTotal TimeSlot (fun a b => a.start_time ≤ b.start_time) :=
  ⟨fun a b => Int.le_total a.start_time b.start_time⟩

instance : IsTrans TimeSlot (fun a b => a.start_time ≤ b.start_time) :=
  ⟨fun _ _ _ hab hbc => le_trans hab hbc⟩

/-- C8: for a well-ordered date pair, `list_time_slots` succeeds and returns
exactly the slots whose start time lies in `[startDate, endDate + 1 day)` and
that pass the category filter, ordered by start time. -/
theorem C8_window_and_order (db : DB) (sd ed : Int) (cids : Option (List Nat))
    (hd : sd ≤ ed) :
    ∃ res, list_time_slots db sd ed cids = .ok res ∧
      (∀ t, t ∈ res ↔
        (t ∈ db.slots ∧
         sd * minutesPerDay ≤ t.start_time ∧
         t.start_time < ed * minutesPerDay + minutesPerDay ∧
         catAllowed cids t.category_id)) ∧
      res.Pairwise (fun a b => a.start_time ≤ b.start_time) := by
  refine ⟨(db.slots.filter (fun t =>
      decide (t.start_time ≥ sd * minutesPerDay) &&
      decide (t.start_time < ed * minutesPerDay + minutesPerDay) &&
      categoryFilterOk cids t.category_id)).insertionSort
      (fun a b => a.start_time ≤ b.start_time), ?_, ?_, ?_⟩
  · unfold list_time_slots
    rw [if_neg (by omega : ¬ ed < sd)]
  · intro t
    rw [List.mem_insertionSort, List.mem_filter]
    simp only [Bool.and_eq_true, decide_eq_true_eq, categoryFilterOk_iff, ge_iff_le]
    tauto
  · exact List.sorted_insertionSort _ _

/-- A store with two slots on different days, listed out of insertion
order. -/
def dbList : DB :=
  { categories := [⟨1, "Cat 1"⟩, ⟨2, "Cat 2"⟩],
    slots := [⟨1, 1, 3000, 3060⟩, ⟨2, 2, 100, 160⟩],
    bookings := [] }

/-- Closed witness for C8 over days 0..2 with no category filter. -/
theorem C8_window_and_order_witness :
    ((0 : Int) ≤ 2) ∧
    ∃ res, list_time_slots dbList 0 2 none = .ok res ∧
      (∀ t, t ∈ res ↔
        (t ∈ dbList.slots ∧
         0 * minutesPerDay ≤ t.start_time ∧
         t.start_time < 2 * minutesPerDay + minutesPerDay ∧
         catAllowed none t.category_id)) ∧
      res.Pairwise (fun a b => a.start_time ≤ b.start_time) :=
  ⟨by decide, C8_window_and_order dbList 0 2 none (by decide)⟩
